import Mathlib

/-!
Verification of the action-result protocol of the `phadldap` directory
connector (`src/Apps/phadldap/adldap_connector.py`). The Python connector is
shallowly embedded: the external `ldap3` library and the directory server are
an oracle environment `Env`; each action handler becomes a Lean function from
`Env` and a typed parameter record to the Python-level outcome (a normal
return or a propagated exception) together with the trace of directory
operations it issued.
-/

/-- A Python exception that can propagate out of (or be caught inside) a
handler. `attributeError` stands for the fault raised by
`raise Exception(self._ldap_bind.result)` (reading `result` off a bound
method raises `AttributeError`); `nameError v` for use of an unbound local
`v`; `typeError` for a call with too many arguments; `socketOpenError` for
`ldap3.LDAPSocketOpenError`; `ldapExc` for any other library fault. -/
inductive PyExc where
  | ldapExc (msg : String)
  | socketOpenError
  | attributeError
  | nameError (v : String)
  | typeError
deriving Repr, DecidableEq

/-- One normalized search hit, with the attributes the connector reads.
`type` is the LDAP result type (entries are `searchResEntry`, referrals
`searchResRef`); `userAccountControl` is the account-control bitmask as the
connector sees it after `int(...)`. -/
structure SearchEntry where
  type : String
  sAMAccountName : String
  distinguishedName : String
  userAccountControl : Nat
deriving Repr, DecidableEq

/-- A value stored in an action result's data records or summary. -/
inductive Val where
  | str (s : String)
  | bool (b : Bool)
  | int (n : Nat)
  | entryList (l : List SearchEntry)
deriving Repr, DecidableEq

/-- The three `ldap3` modify change types. -/
inductive ChangeType where
  | add
  | delete
  | replace
deriving Repr, DecidableEq

/-- One directory operation issued over the wire, as recorded in a handler's
trace. -/
inductive DirOp where
  | search (filter : String) (attrs : List String)
  | modify (dn : String) (changes : List (String × List (ChangeType × List Val)))
  | modifyDN (dn : String) (rdn : String) (newSuperior : String)
  | addMembers (members : List String) (groups : List String)
  | removeMembers (members : List String) (groups : List String)
  | unlock (dn : String)
  | modifyPassword (dn : String) (pwd : String)
deriving Repr, DecidableEq

/-- Whether a directory operation is a group-membership edit (the extended
add-members-to-groups / remove-members-from-groups operations). -/
def DirOp.isGroupMembershipOp : DirOp → Bool
  | .addMembers _ _ => true
  | .removeMembers _ _ => true
  | _ => false

/-- The oracle environment: the behaviour of the `ldap3` library and the
directory server as seen by one handler invocation. `bindOk` is the outcome
of `_ldap_bind` (which catches its own faults and reports a boolean);
`staleResponse` is what `connection.response` holds when read back after a
search that raised (`none` models an access that itself raises). -/
structure Env where
  bindOk : Bool
  search : String → List String → Except PyExc (List SearchEntry)
  staleResponse : Option (List SearchEntry)
  modify : String → List (String × List (ChangeType × List Val)) → Except PyExc Bool
  modifyDN : String → String → String → Except PyExc Bool
  addMembersToGroups : List String → List String → Except PyExc Unit
  removeMembersFromGroups : List String → List String → Except PyExc Unit
  unlockAccount : String → Except PyExc Unit
  modifyPassword : String → String → Except PyExc Bool
  parseDn : String → Except PyExc (List (String × String × String))

/-- The mutable `ActionResult` accumulator owned by one handler invocation,
at the moment the handler hands it back: terminal status (`none` when the
handler never set one), message, whether an exception object was attached,
the data records, and the summary mapping. -/
structure ActionResult where
  status : Option Bool := none
  message : String := ""
  exceptionAttached : Bool := false
  data : List (List (String × Val)) := []
  summary : List (String × Val) := []
deriving Repr, DecidableEq

/-- What a handler's Python function returns to `handle_action`: a RetVal /
status built from its action result, a bare status code, or `None` when the
function falls off its end without a return statement. -/
inductive HandlerRet where
  | result (ar : ActionResult)
  | code (b : Bool)
  | nothing
deriving Repr, DecidableEq

/-- Python's `split(';')` on the underlying character list: empty pieces are
kept, and the empty string splits to one empty piece. -/
def splitOnSemi : List Char → List String
  | [] => [""]
  | c :: cs =>
    if c = ';' then "" :: splitOnSemi cs
    else
      match splitOnSemi cs with
      | [] => [String.mk [c]]
      | r :: rs => String.mk (c :: r.data) :: rs

/-- Python's `strip()`: drop whitespace from both ends. -/
def pyStrip (s : String) : String :=
  String.mk (((s.data.dropWhile Char.isWhitespace).reverse.dropWhile
    Char.isWhitespace).reverse)

/-- Split a semicolon-delimited parameter and strip each piece, as
`[i.strip() for i in s.split(';')]` does. -/
def splitSemi (s : String) : List String :=
  (splitOnSemi s.data).map pyStrip

/-- Set key `k` to `v` in an insertion-ordered dictionary: overwrite in place
when the key exists, append otherwise. -/
def dictSet (r : List (String × Option String)) (k : String) (v : Option String) :
    List (String × Option String) :=
  if r.any (fun kv => kv.1 = k) then
    r.map (fun kv => if kv.1 = k then (k, v) else kv)
  else r ++ [(k, v)]

/-- Dictionary lookup: the value at key `k`, or `none` when the key is absent
(a Python `KeyError`). -/
def dictGet (r : List (String × Option String)) (k : String) : Option (Option String) :=
  (r.find? (fun kv => kv.1 = k)).map (fun kv => kv.2)

/-- Set key `k` to `v` in a summary / data mapping. -/
def valSet (m : List (String × Val)) (k : String) (v : Val) : List (String × Val) :=
  if m.any (fun kv => kv.1 = k) then
    m.map (fun kv => if kv.1 = k then (k, v) else kv)
  else m ++ [(k, v)]

/-- `ActionResult.update_summary`: merge the given pairs into the summary,
overwriting existing keys. -/
def updateSummary (m : List (String × Val)) (upd : List (String × Val)) :
    List (String × Val) :=
  upd.foldl (fun acc kv => valSet acc kv.1 kv.2) m

/-- The seed dictionary of `_sam_to_dn`: every input short form mapped to the
`False` sentinel (here `none`), in first-occurrence order, one key per
distinct input. -/
def seedMap (sam : List String) : List (String × Option String) :=
  sam.foldl (fun r name => dictSet r name none) []

/-- One iteration of `_sam_to_dn`'s result loop: when the hit's
`sAMAccountName` is a key of the dictionary, overwrite that key's value with
the hit's `distinguishedName`. -/
def applyHit (r : List (String × Option String)) (e : SearchEntry) :
    List (String × Option String) :=
  if r.any (fun kv => kv.1 = e.sAMAccountName) then
    dictSet r e.sAMAccountName (some e.distinguishedName)
  else r

/-- The mapping `_sam_to_dn` builds from its inputs and the search response:
seed every input with `False`, then fold the response entries over it. -/
def sam_to_dn_map (sam : List String) (entries : List SearchEntry) :
    List (String × Option String) :=
  entries.foldl applyHit (seedMap sam)

/-- The OR-combined equality filter `_sam_to_dn` builds over its inputs. -/
def samFilter (sam : List String) : String :=
  "(|" ++ String.join (sam.map (fun u => "(samaccountname=" ++ u ++ ")")) ++ ")"

/-- The attribute list `_sam_to_dn` requests (after `_query` splits it). -/
def samAttrs : List String := ["distinguishedname", "samaccountname"]

/-- `_sam_to_dn` with its query round trip: issues the batched search through
`_query` (which re-checks the bind and raises on failure, and propagates any
search fault) and builds the result mapping. Returns the propagated
exception or the mapping, together with the trace. -/
def sam_to_dn_run (env : Env) (sam : List String) :
    Except PyExc (List (String × Option String)) × List DirOp :=
  if env.bindOk then
    match env.search (samFilter sam) samAttrs with
    | .ok entries => (.ok (sam_to_dn_map sam entries), [.search (samFilter sam) samAttrs])
    | .error e => (.error e, [.search (samFilter sam) samAttrs])
  else (.error .attributeError, [])

/-- The ordered list of resolved canonical identifiers: the non-`False`
values of the `_sam_to_dn` mapping, as the handler's accumulation loop
collects them. -/
def resolvedOf (sam : List String) (entries : List SearchEntry) : List String :=
  (sam_to_dn_map sam entries).filterMap (fun kv => kv.2)

/-- `_get_filtered_response`: the last search response with referral-type
items dropped; the empty list when accessing the response raises. -/
def get_filtered_response (resp : Option (List SearchEntry)) : List SearchEntry :=
  match resp with
  | none => []
  | some l => l.filter (fun i => i.type ≠ "searchResRef")

/-- Parameters of `add_group_members` / `remove_group_members`. -/
structure GroupParams where
  members : String
  groups : String
  use_samaccountname : Bool

/-- One data record of a group-membership action. -/
def memberRecord (func i j : String) : List (String × Val) :=
  [("member", Val.str i), ("group", Val.str j), ("function", Val.str func)]

/-- The data records a successful group-membership action emits: the nested
for-loop over final members and final groups. -/
def cartRecords (func : String) (members groups : List String) :
    List (List (String × Val)) :=
  (members.map (fun i => groups.map (fun j => memberRecord func i j))).flatten

/-- The summary pairs `_sam_to_dn` merges into an action result it is given:
requested record count and found record count. -/
def samSummary (sam : List String) (m : List (String × Option String)) :
    List (String × Val) :=
  [("requested records", Val.int sam.length),
   ("found records", Val.int ((m.filter (fun kv => kv.2.isSome)).length))]

/-- The tail of `_handle_group_members` once the final member and group
lists are fixed: the try block around the extended group-membership
operation (faults caught and attached under an error status), then on
success one data record per (member, group) pair and a success status with
the function's message. -/
def group_members_finish (env : Env) (ar : ActionResult)
    (members' groups' : List String) (add : Bool) (ops : List DirOp) :
    Except PyExc HandlerRet × List DirOp :=
  let op := if add then DirOp.addMembers members' groups'
            else DirOp.removeMembers members' groups'
  let callRes := if add then env.addMembersToGroups members' groups'
                 else env.removeMembersFromGroups members' groups'
  match callRes with
  | .error _ =>
    (.ok (.result { ar with status := some false, exceptionAttached := true }),
     ops ++ [op])
  | .ok _ =>
    let func := if add then "added" else "removed"
    (.ok (.result { ar with
        status := some true,
        message := func ++ " member(s) to group(s).",
        data := cartRecords func members' groups' }),
     ops ++ [op])

/-- `_handle_group_members` (`add = true` for `add_group_members`): bind
check, optional batched identifier resolution of both lists (aborting with a
bare error status when either resolved list is empty), then the operation
and data-record tail. Faults raised inside `_sam_to_dn`'s query are not
inside any try block and propagate. -/
def handle_group_members (env : Env) (p : GroupParams) (add : Bool) :
    Except PyExc HandlerRet × List DirOp :=
  if !env.bindOk then (.ok (.result { status := some false }), [])
  else
    let members := splitSemi p.members
    let groups := splitSemi p.groups
    if p.use_samaccountname then
      match sam_to_dn_run env members with
      | (.error e, ops) => (.error e, ops)
      | (.ok tUsers, ops1) =>
        let ar1 : ActionResult :=
          { summary := updateSummary [] (samSummary members tUsers) }
        match sam_to_dn_run env groups with
        | (.error e, ops2) => (.error e, ops1 ++ ops2)
        | (.ok tGroups, ops2) =>
          let ar2 := { ar1 with summary := updateSummary ar1.summary (samSummary groups tGroups) }
          let n_members := tUsers.filterMap (fun kv => kv.2)
          let n_groups := tGroups.filterMap (fun kv => kv.2)
          if 0 < n_members.length ∧ 0 < n_groups.length then
            group_members_finish env ar2 n_members n_groups add (ops1 ++ ops2)
          else
            (.ok (.result { ar2 with status := some false }), ops1 ++ ops2)
    else group_members_finish env {} members groups add []

/-- Parameters of `unlock_account`. -/
structure UnlockParams where
  user : String
  use_samaccountname : Bool

/-- `_handle_unlock_account`: when resolution is requested, resolve the user
as a one-element batch (before the bind check; a fault from that query
propagates) and abort with an error status when unresolved; otherwise the
local `user_dn` is never assigned and the unlock attempt inside the try
block raises a caught `NameError`. -/
def handle_unlock_account (env : Env) (p : UnlockParams) :
    Except PyExc HandlerRet × List DirOp :=
  if p.use_samaccountname then
    match sam_to_dn_run env [p.user] with
    | (.error e, ops) => (.error e, ops)
    | (.ok m, ops) =>
      if m.length = 0 ∨ dictGet m p.user = some none then
        (.ok (.result { status := some false }), ops)
      else
        if !env.bindOk then (.ok (.result { status := some false }), ops)
        else
          match dictGet m p.user with
          | some (some dn) =>
            match env.unlockAccount dn with
            | .error _ =>
              (.ok (.result { status := some false, exceptionAttached := true }),
               ops ++ [.unlock dn])
            | .ok _ =>
              (.ok (.result { status := some true,
                              summary := [("summary", Val.str "Unlocked")] }),
               ops ++ [.unlock dn])
          | _ =>
            (.ok (.result { status := some false, exceptionAttached := true }), ops)
  else
    if !env.bindOk then (.ok (.result { status := some false }), [])
    else
      (.ok (.result { status := some false, exceptionAttached := true }), [])

/-- Parameters of `disable_account` / `enable_account`. -/
structure AccountParams where
  user : String

/-- Line 296 of the source: set the disabled bit. -/
def disable_uac (uac : Nat) : Nat := uac ||| 0x02

/-- Line 298 of the source: clear the disabled bit with an AND against the
32-bit complement mask. -/
def enable_uac (uac : Nat) : Nat := uac &&& (0xFFFFFFFF ^^^ 0x02)

/-- The scoped filter `_handle_account_status` queries with. -/
def uacQueryFilter (user : String) : String :=
  "(distinguishedname=" ++ user ++ ")"

/-- What `_handle_account_status` sees when it reads the filtered response
back: the current search's entries when the scoped query succeeded, the
stale connection response otherwise (the `query` handler it delegates to
catches the fault and its returned error result is discarded). -/
def account_status_resp (env : Env) (user : String) : List SearchEntry :=
  match env.search (uacQueryFilter user) ["useraccountcontrol"] with
  | .ok entries => get_filtered_response (some entries)
  | .error _ => get_filtered_response env.staleResponse

/-- The modify tail of `_handle_account_status`: one attribute-replace
modification; a raising modify is caught and attached, a falsy return
carries the connection's diagnostic, a truthy return is success. -/
def account_status_modify (env : Env) (user : String)
    (changes : List (String × List (ChangeType × List Val))) (ops0 : List DirOp) :
    Except PyExc HandlerRet × List DirOp :=
  match env.modify user changes with
  | .error _ =>
    (.ok (.result { status := some false, exceptionAttached := true }),
     ops0 ++ [.modify user changes])
  | .ok false =>
    (.ok (.result { status := some false, message := "ldap result" }),
     ops0 ++ [.modify user changes])
  | .ok true =>
    (.ok (.result { status := some true }), ops0 ++ [.modify user changes])

/-- `_handle_account_status` (`disable = true` for `disable_account`): bind
check, then inside one try block a scoped query (run through the `query`
action handler, whose own result is discarded and which catches query
faults), a read of the filtered response, the bitwise update of the
account-control value, and a targeted attribute-replace modify. Every fault
inside the try block is caught and becomes an error status. -/
def handle_account_status (env : Env) (p : AccountParams) (disable : Bool) :
    Except PyExc HandlerRet × List DirOp :=
  if !env.bindOk then (.ok (.result { status := some false }), [])
  else
    let ops0 : List DirOp := [.search (uacQueryFilter p.user) ["useraccountcontrol"]]
    match account_status_resp env p.user with
    | [] => (.ok (.result { status := some false, exceptionAttached := true }), ops0)
    | e0 :: _ =>
      let uac := e0.userAccountControl
      let mod_uac := if disable then disable_uac uac else enable_uac uac
      account_status_modify env p.user
        [("userAccountControl", [(.replace, [Val.int mod_uac])])] ops0

/-- Parameters of `move_object`. -/
structure MoveParams where
  obj : String
  new_ou : String

/-- `_handle_move_object`: bind check, then inside a try block the first
relative-distinguished-name component of the object is re-joined as
`attribute=value` and one modify-DN is issued with the supplied container as
new superior. A falsy modify-DN return or a caught fault yields an error
status; on a truthy return the function falls off its end and returns
`None` with no status ever set. -/
def handle_move_object (env : Env) (p : MoveParams) :
    Except PyExc HandlerRet × List DirOp :=
  if !env.bindOk then (.ok (.result { status := some false }), [])
  else
    match env.parseDn p.obj with
    | .error _ => (.ok (.result { status := some false, exceptionAttached := true }), [])
    | .ok [] =>
      (.ok (.result { status := some false, exceptionAttached := true }), [])
    | .ok ((a, v, _) :: _) =>
      let cn := a ++ "=" ++ v
      match env.modifyDN p.obj cn p.new_ou with
      | .error _ =>
        (.ok (.result { status := some false, exceptionAttached := true }),
         [.modifyDN p.obj cn p.new_ou])
      | .ok false =>
        (.ok (.result { status := some false, message := "ldap result" }),
         [.modifyDN p.obj cn p.new_ou])
      | .ok true =>
        (.ok .nothing, [.modifyDN p.obj cn p.new_ou])

/-- `_handle_test_connectivity`: `_ldap_bind(action_result)` catches every
fault itself and sets the status; the handler returns the bare status code. -/
def handle_test_connectivity (env : Env) : Except PyExc HandlerRet × List DirOp :=
  (.ok (.code env.bindOk), [])

/-- Parameters of the raw `query` action. -/
structure QueryParams where
  filter : String
  attributes : String

/-- `_handle_query`: runs `_query` inside a try block that catches socket
faults with a dedicated hint and any other fault with its text; on success
stores the parsed response as one data record and the post-filter count in
the summary. -/
def handle_query_action (env : Env) (p : QueryParams) :
    Except PyExc HandlerRet × List DirOp :=
  if !env.bindOk then
    (.ok (.result { status := some false, message := "exception text" }), [])
  else
    let attrs := splitSemi p.attributes
    match env.search p.filter attrs with
    | .error .socketOpenError =>
      let msg := "Invalid server address. Two common causes: invalid Server hostname or search_base"
      (.ok (.result { status := some false, message := msg }), [.search p.filter attrs])
    | .error _ =>
      (.ok (.result { status := some false, message := "exception text" }),
       [.search p.filter attrs])
    | .ok entries =>
      let ar : ActionResult :=
        { status := some true,
          data := [[("entries", Val.entryList entries)]],
          summary := [("Total Records Found",
                       Val.int (get_filtered_response (some entries)).length)] }
      (.ok (.result ar), [.search p.filter attrs])

/-- Parameters of `get_attributes`. -/
structure GetAttrParams where
  principals : String
  attributes : String

/-- The OR filter `_handle_get_attributes` builds over the three identifying
attributes for every supplied principal. -/
def getAttrFilter (principals : List String) : String :=
  "(|" ++ String.join (principals.map (fun i =>
    "(userprincipalname=" ++ i ++ ")(samaccountname=" ++ i ++
    ")(distinguishedname=" ++ i ++ ")")) ++ ")"

/-- `_handle_get_attributes`: bind check (returning a bare error code on
failure), then `_query` with the combined filter, with no try block around
it: a search fault propagates out of the handler. On success the parsed
response becomes one data record and the post-filter count the summary. -/
def handle_get_attributes (env : Env) (p : GetAttrParams) :
    Except PyExc HandlerRet × List DirOp :=
  if !env.bindOk then (.ok (.code false), [])
  else
    let filter := getAttrFilter (splitSemi p.principals)
    let attrs := splitSemi p.attributes
    match env.search filter attrs with
    | .error e => (.error e, [.search filter attrs])
    | .ok entries =>
      let ar : ActionResult :=
        { status := some true,
          data := [[("entries", Val.entryList entries)]],
          summary := [("total_objects",
                       Val.int (get_filtered_response (some entries)).length)] }
      (.ok (.result ar), [.search filter attrs])

/-- Parameters of `set_attribute` (the `attribute` parameter is embedded as
`attrName`, since `attribute` is a Lean keyword). -/
structure SetAttrParams where
  user : String
  attrName : String
  value : String
  action : String

/-- The change set `_handle_set_attribute` builds: one change for an exact
`ADD` / `DELETE` / `REPLACE` action string, and the empty dictionary for any
other action value. -/
def setAttrChanges (p : SetAttrParams) : List (String × List (ChangeType × List Val)) :=
  if p.action = "ADD" then [(p.attrName, [(.add, [Val.str p.value])])]
  else if p.action = "DELETE" then [(p.attrName, [(.delete, [Val.str p.value])])]
  else if p.action = "REPLACE" then [(p.attrName, [(.replace, [Val.str p.value])])]
  else []

/-- `_handle_set_attribute`: bind check (bare error code on failure), then
one modify with the built change set. A returning modify has its boolean
recorded as the `modified` data value under a success status; when the
modify raises, the except clause builds a RetVal without returning it and
the following `add_data` reads the unbound local `ret`, so a `NameError`
propagates. -/
def handle_set_attribute (env : Env) (p : SetAttrParams) :
    Except PyExc HandlerRet × List DirOp :=
  let changes := setAttrChanges p
  if !env.bindOk then (.ok (.code false), [])
  else
    match env.modify p.user changes with
    | .ok ret =>
      (.ok (.result { status := some true, data := [[("modified", Val.bool ret)]] }),
       [.modify p.user changes])
    | .error _ =>
      (.error (.nameError "ret"), [.modify p.user changes])

/-- Parameters of `reset_password`. -/
structure ResetParams where
  user : String
  password : String

/-- `_handle_reset_password`: on bind failure the handler executes
`raise Exception(self._ldap_bind.result)`, which itself raises reading
`result` off the bound method — either way an exception propagates. A fault
from the extended password operation is caught, but the except clause calls
`RetVal` with three arguments and its two-to-three-argument constructor
raises a `TypeError` that propagates. A returning operation records the
boolean as the `reset` data value and sets success exactly when it is
truthy. -/
def handle_reset_password (env : Env) (p : ResetParams) :
    Except PyExc HandlerRet × List DirOp :=
  if !env.bindOk then (.error .attributeError, [])
  else
    match env.modifyPassword p.user p.password with
    | .error _ => (.error .typeError, [.modifyPassword p.user p.password])
    | .ok true =>
      (.ok (.result { status := some true, data := [[("reset", Val.bool true)]] }),
       [.modifyPassword p.user p.password])
    | .ok false =>
      (.ok (.result { status := some false, data := [[("reset", Val.bool false)]] }),
       [.modifyPassword p.user p.password])

/-- A neutral concrete environment for evaluating the handlers: the bind
succeeds, every search returns no entries, and every directory operation
succeeds. -/
def baseEnv : Env where
  bindOk := true
  search := fun _ _ => .ok []
  staleResponse := none
  modify := fun _ _ => .ok true
  modifyDN := fun _ _ _ => .ok true
  addMembersToGroups := fun _ _ => .ok ()
  removeMembersFromGroups := fun _ _ => .ok ()
  unlockAccount := fun _ => .ok ()
  modifyPassword := fun _ _ => .ok true
  parseDn := fun _ => .ok [("CN", "Alice", ",")]

/-- A sample search hit resolving the short form `alice`. -/
def entryAlice : SearchEntry :=
  { type := "searchResEntry", sAMAccountName := "alice",
    distinguishedName := "CN=Alice,DC=x", userAccountControl := 512 }

/-- A sample search hit resolving the short form `g1`. -/
def entryG1 : SearchEntry :=
  { type := "searchResEntry", sAMAccountName := "g1",
    distinguishedName := "CN=G1,DC=x", userAccountControl := 0 }

/-- A concrete environment whose resolution query finds `alice` (but not
`bob`) for the member batch and `g1` for any other batch. -/
def envC2 : Env :=
  { baseEnv with search := fun f _ =>
      if f = samFilter ["alice", "bob"] then Except.ok [entryAlice]
      else Except.ok [entryG1] }

/-- Invariance of a predicate under a left fold. -/
theorem foldlInv {α β : Type} (P : β → Prop) (f : β → α → β) :
    ∀ (l : List α) (b : β), P b → (∀ b a, a ∈ l → P b → P (f b a)) → P (l.foldl f b)
  | [], _, hb, _ => hb
  | a :: l, b, hb, hstep =>
    foldlInv P f l (f b a) (hstep b a (List.mem_cons_self a l) hb)
      (fun b' a' ha' hb' => hstep b' a' (List.mem_cons_of_mem a ha') hb')

theorem map_fst_dictSet_of_mem {r : List (String × Option String)} {k : String}
    {v : Option String} (h : r.any (fun kv => kv.1 = k)) :
    (dictSet r k v).map (fun kv => kv.1) = r.map (fun kv => kv.1) := by
  unfold dictSet
  rw [if_pos h, List.map_map]
  apply List.map_congr_left
  intro kv _
  by_cases hk : kv.1 = k
  · simp [hk]
  · simp [hk]

theorem map_fst_dictSet_of_not_mem {r : List (String × Option String)} {k : String}
    {v : Option String} (h : ¬ r.any (fun kv => kv.1 = k)) :
    (dictSet r k v).map (fun kv => kv.1) = r.map (fun kv => kv.1) ++ [k] := by
  unfold dictSet
  rw [if_neg h, List.map_append]
  rfl

theorem mem_map_fst_dictSet {r : List (String × Option String)} {k k' : String}
    {v : Option String} :
    k' ∈ (dictSet r k v).map (fun kv => kv.1) ↔ k' ∈ r.map (fun kv => kv.1) ∨ k' = k := by
  by_cases h : r.any (fun kv => kv.1 = k)
  · rw [map_fst_dictSet_of_mem h]
    constructor
    · exact Or.inl
    · rintro (hk | rfl)
      · exact hk
      · rcases List.any_eq_true.mp h with ⟨kv, hkv, he⟩
        have : kv.1 = k' := by simpa using he
        exact this ▸ List.mem_map_of_mem (fun kv => kv.1) hkv
  · rw [map_fst_dictSet_of_not_mem h]
    simp

theorem mem_dictSet {r : List (String × Option String)} {k : String}
    {v : Option String} {kv' : String × Option String} (h : kv' ∈ dictSet r k v) :
    kv' ∈ r ∨ kv' = (k, v) := by
  unfold dictSet at h
  split at h
  · rcases List.mem_map.mp h with ⟨kv, hkv, he⟩
    by_cases hk : kv.1 = k
    · simp only [hk, if_pos rfl] at he
      exact Or.inr he.symm
    · simp only [hk, if_neg hk] at he
      exact Or.inl (he ▸ hkv)
  · rcases List.mem_append.mp h with hk | hk
    · exact Or.inl hk
    · exact Or.inr (List.mem_singleton.mp hk)

theorem seed_values_none (sam : List String) :
    ∀ kv ∈ seedMap sam, kv.2 = none := by
  unfold seedMap
  refine foldlInv (fun r => ∀ kv ∈ r, kv.2 = none)
    (fun r name => dictSet r name none) sam [] ?_ ?_
  · intro kv hkv
    simp at hkv
  · intro b a _ hb kv hkv
    rcases mem_dictSet hkv with hm | rfl
    · exact hb kv hm
    · rfl

theorem seed_keys_nodup (sam : List String) :
    ((seedMap sam).map (fun kv => kv.1)).Nodup := by
  unfold seedMap
  refine foldlInv (fun r => (r.map (fun kv => kv.1)).Nodup)
    (fun r name => dictSet r name none) sam [] ?_ ?_
  · simp
  · intro b a _ hb
    by_cases h : b.any (fun kv => kv.1 = a)
    · rw [map_fst_dictSet_of_mem h]
      exact hb
    · rw [map_fst_dictSet_of_not_mem h]
      have hna : a ∉ b.map (fun kv => kv.1) := by
        intro hmem
        rcases List.mem_map.mp hmem with ⟨kv, hkv, he⟩
        exact h (List.any_eq_true.mpr ⟨kv, hkv, by simp [he]⟩)
      simp [List.nodup_append, hb, hna]

theorem mem_seed_keys_general (sam : List String) :
    ∀ (acc : List (String × Option String)) (k : String),
      k ∈ ((sam.foldl (fun r name => dictSet r name none) acc).map (fun kv => kv.1)) ↔
        k ∈ acc.map (fun kv => kv.1) ∨ k ∈ sam := by
  induction sam with
  | nil => simp
  | cons n sam ih =>
    intro acc k
    rw [List.foldl_cons, ih (dictSet acc n none) k]
    rw [mem_map_fst_dictSet]
    constructor
    · rintro ((h | rfl) | h)
      · exact Or.inl h
      · exact Or.inr (List.mem_cons_self _ _)
      · exact Or.inr (List.mem_cons_of_mem _ h)
    · rintro (h | h)
      · exact Or.inl (Or.inl h)
      · rcases List.mem_cons.mp h with rfl | h
        · exact Or.inl (Or.inr rfl)
        · exact Or.inr h

theorem mem_seed_keys (sam : List String) (k : String) :
    k ∈ (seedMap sam).map (fun kv => kv.1) ↔ k ∈ sam := by
  unfold seedMap
  rw [mem_seed_keys_general sam [] k]
  simp

theorem map_fst_applyHit (r : List (String × Option String)) (e : SearchEntry) :
    (applyHit r e).map (fun kv => kv.1) = r.map (fun kv => kv.1) := by
  unfold applyHit
  split
  · exact map_fst_dictSet_of_mem (by assumption)
  · rfl

theorem map_fst_sam_to_dn (sam : List String) (entries : List SearchEntry) :
    (sam_to_dn_map sam entries).map (fun kv => kv.1) =
      (seedMap sam).map (fun kv => kv.1) := by
  unfold sam_to_dn_map
  refine foldlInv (fun r => r.map (fun kv => kv.1) = (seedMap sam).map (fun kv => kv.1))
    applyHit entries (seedMap sam) ?_ ?_
  · rfl
  · intro b a _ hb
    rw [map_fst_applyHit, hb]

/-- Claim C4: for every list of short-form identifiers and every search
response, the `_sam_to_dn` mapping has exactly one entry per distinct input
identifier (its keys are duplicate-free and are exactly the inputs), every
value is either the `False` sentinel or a canonical identifier taken from a
response hit whose short-form name equals that key, and inputs with no
matching hit remain mapped to the sentinel. -/
theorem c4_sam_to_dn_mapping (sam : List String) (entries : List SearchEntry) :
    ((sam_to_dn_map sam entries).map (fun kv => kv.1)).Nodup ∧
    (∀ k, k ∈ (sam_to_dn_map sam entries).map (fun kv => kv.1) ↔ k ∈ sam) ∧
    (∀ kv ∈ sam_to_dn_map sam entries,
      kv.2 = none ∨ ∃ e, e ∈ entries ∧ e.sAMAccountName = kv.1 ∧
        kv.2 = some e.distinguishedName) ∧
    (∀ kv ∈ sam_to_dn_map sam entries,
      (∀ e ∈ entries, e.sAMAccountName ≠ kv.1) → kv.2 = none) := by
  have hprov : ∀ kv ∈ sam_to_dn_map sam entries,
      kv.2 = none ∨ ∃ e, e ∈ entries ∧ e.sAMAccountName = kv.1 ∧
        kv.2 = some e.distinguishedName := by
    unfold sam_to_dn_map
    refine foldlInv (fun r => ∀ kv ∈ r, kv.2 = none ∨ ∃ e, e ∈ entries ∧
      e.sAMAccountName = kv.1 ∧ kv.2 = some e.distinguishedName)
      applyHit entries (seedMap sam) ?_ ?_
    · intro kv hkv
      exact Or.inl (seed_values_none sam kv hkv)
    · intro b a ha hb kv hkv
      unfold applyHit at hkv
      split at hkv
      · rcases mem_dictSet hkv with hm | rfl
        · exact hb kv hm
        · exact Or.inr ⟨a, ha, rfl, rfl⟩
      · exact hb kv hkv
  refine ⟨?_, ?_, hprov, ?_⟩
  · rw [map_fst_sam_to_dn]
    exact seed_keys_nodup sam
  · intro k
    rw [map_fst_sam_to_dn]
    exact mem_seed_keys sam k
  · intro kv hkv hnone
    rcases hprov kv hkv with h | ⟨e, he, hname, _⟩
    · exact h
    · exact absurd hname (hnone e he)

/-- Claim C7: `_get_filtered_response` returns exactly the response items
whose result type is not `searchResRef` — never a referral-type entry, for
any mix of entry and referral types — and returns the empty list when the
response cannot be accessed. -/
theorem c7_filtered_response (resp : Option (List SearchEntry)) :
    (∀ i ∈ get_filtered_response resp, i.type ≠ "searchResRef") ∧
    (∀ l, resp = some l →
      get_filtered_response resp = l.filter (fun i => i.type ≠ "searchResRef") ∧
      (∀ i ∈ get_filtered_response resp, i ∈ l) ∧
      (∀ i ∈ l, i.type ≠ "searchResRef" → i ∈ get_filtered_response resp)) ∧
    get_filtered_response none = [] := by
  refine ⟨?_, ?_, rfl⟩
  · intro i hi
    cases resp with
    | none => simp [get_filtered_response] at hi
    | some l =>
      simp only [get_filtered_response, List.mem_filter] at hi
      simpa using hi.2
  · rintro l rfl
    refine ⟨rfl, ?_, ?_⟩
    · intro i hi
      simp only [get_filtered_response, List.mem_filter] at hi
      exact hi.1
    · intro i hi hne
      simp only [get_filtered_response, List.mem_filter]
      exact ⟨hi, by simpa using hne⟩

/-- Claim C3 (counterexample): at the starting value 2^32 the enable
operation clears bit 32, so not every bit other than 0x02 is unchanged, and
disable followed by enable yields 0 rather than the original value. -/
theorem c3_counterexample :
    enable_uac 4294967296 = 0 ∧ disable_uac 4294967296 = 4294967298 ∧
    enable_uac (disable_uac 4294967296) = 0 ∧
    Nat.testBit 4294967296 32 = true ∧ Nat.testBit 0 32 = false := by
  refine ⟨by decide, by decide, by decide, by decide, by decide⟩

/-- Claim C3 (amended): disable computes `uac OR 0x02` and enable computes
`uac AND (0xFFFFFFFF XOR 0x02)` for every starting value; disable leaves
every bit other than 0x02 unchanged unconditionally, and for every starting
value below 2^32 enable also leaves every such bit unchanged and disable
followed by enable restores every bit other than 0x02 (for values with bits
at position 32 or above, enable clears those bits). -/
theorem c3_amended (uac : Nat) :
    disable_uac uac = uac ||| 0x02 ∧
    enable_uac uac = uac &&& (0xFFFFFFFF ^^^ 0x02) ∧
    (∀ i, i ≠ 1 → (disable_uac uac).testBit i = uac.testBit i) ∧
    (uac < 2 ^ 32 → ∀ i, i ≠ 1 →
      (enable_uac uac).testBit i = uac.testBit i ∧
      (enable_uac (disable_uac uac)).testBit i = uac.testBit i) := by
  have h2 : ∀ i : Nat, i ≠ 1 → Nat.testBit 2 i = false := by
    intro i hi
    have : (2 : Nat) = 2 ^ 1 := rfl
    rw [this, Nat.testBit_two_pow_of_ne (Ne.symm hi)]
  have hmask : ∀ i : Nat, i ≠ 1 →
      Nat.testBit (0xFFFFFFFF ^^^ 0x02) i = decide (i < 32) := by
    intro i hi
    rw [Nat.testBit_xor, h2 i hi]
    have h32 : (0xFFFFFFFF : Nat) = 2 ^ 32 - 1 := by norm_num
    rw [h32, Nat.testBit_two_pow_sub_one]
    simp
  refine ⟨rfl, rfl, ?_, ?_⟩
  · intro i hi
    unfold disable_uac
    rw [Nat.testBit_lor, h2 i hi, Bool.or_false]
  · intro hlt i hi
    have hbit : i ≥ 32 → uac.testBit i = false := by
      intro h32
      exact Nat.testBit_eq_false_of_lt (lt_of_lt_of_le hlt (Nat.pow_le_pow_right (by norm_num) h32))
    constructor
    · unfold enable_uac
      rw [Nat.testBit_land, hmask i hi]
      by_cases hi32 : i < 32
      · simp [hi32]
      · simp [hi32, hbit (le_of_not_lt hi32)]
    · unfold enable_uac disable_uac
      rw [Nat.testBit_land, Nat.testBit_lor, h2 i hi, Bool.or_false, hmask i hi]
      by_cases hi32 : i < 32
      · simp [hi32]
      · simp [hi32, hbit (le_of_not_lt hi32)]
/-- Claim C6 (code evaluation at the failing input): on `move_object`'s
success path — the object parses, the modify-DN call returns truthy — the
handler function falls off its end and hands `None` back to `handle_action`;
no terminal status is ever set on its action result. -/
theorem c6_move_object_success_returns_none :
    handle_move_object baseEnv { obj := "CN=Alice,OU=Old,DC=x", new_ou := "OU=New,DC=x" } =
      (Except.ok HandlerRet.nothing,
       [DirOp.modifyDN "CN=Alice,OU=Old,DC=x" "CN=Alice" "OU=New,DC=x"]) := rfl

/-- Claim C8: whenever the bind holds and the canonical identifier parses
with a first relative-distinguished-name component `(a, v, _)`, the
`move_object` handler issues exactly one directory operation: a modify-DN
whose new relative name is `a=v` (joined as attribute=value, preserving the
leaf name) and whose new superior is the supplied container. -/
theorem c8_move_object_rename (env : Env) (p : MoveParams) (a v sep : String)
    (rest : List (String × String × String))
    (hbind : env.bindOk = true)
    (hparse : env.parseDn p.obj = Except.ok ((a, v, sep) :: rest)) :
    (handle_move_object env p).2 = [DirOp.modifyDN p.obj (a ++ "=" ++ v) p.new_ou] := by
  unfold handle_move_object
  rw [hbind, hparse]
  cases hm : env.modifyDN p.obj (a ++ "=" ++ v) p.new_ou with
  | error e => simp [hm]
  | ok b => cases b <;> simp [hm]

/-- Witness for C8 at a concrete environment and input. -/
theorem c8_witness :
    baseEnv.bindOk = true ∧
    baseEnv.parseDn "CN=Alice,OU=Old,DC=x" = Except.ok [("CN", "Alice", ",")] ∧
    (handle_move_object baseEnv { obj := "CN=Alice,OU=Old,DC=x", new_ou := "OU=New,DC=x" }).2 =
      [DirOp.modifyDN "CN=Alice,OU=Old,DC=x" ("CN" ++ "=" ++ "Alice") "OU=New,DC=x"] :=
  ⟨rfl, rfl,
   c8_move_object_rename baseEnv { obj := "CN=Alice,OU=Old,DC=x", new_ou := "OU=New,DC=x" }
     "CN" "Alice" "," [] rfl rfl⟩

/-- Claim C9: for every `unlock_account` invocation without identifier
resolution, the handler issues no directory operation at all (in particular
it never calls the unlock extended operation with the raw user identifier:
the local holding the resolved identifier is unbound, and the attempt raises
a caught `NameError`), and it always finalizes with an error status. -/
theorem c9_unlock_account_unresolved (env : Env) (p : UnlockParams)
    (h : p.use_samaccountname = false) :
    ∃ ar, handle_unlock_account env p = (Except.ok (HandlerRet.result ar), []) ∧
      ar.status = some false := by
  unfold handle_unlock_account
  rw [h]
  cases hb : env.bindOk <;> simp [hb]

/-- Witness for C9 at a concrete environment and input. -/
theorem c9_witness :
    ∃ ar, handle_unlock_account baseEnv { user := "u", use_samaccountname := false } =
        (Except.ok (HandlerRet.result ar), []) ∧ ar.status = some false :=
  c9_unlock_account_unresolved baseEnv { user := "u", use_samaccountname := false } rfl

/-- Claim C10: a `set_attribute` invocation whose action string is none of
`ADD`, `DELETE`, `REPLACE` is not rejected: the change set stays empty, the
handler still issues one modify against the target with that empty change
set, records the call's boolean return as the `modified` data value, and
finalizes with success status. -/
theorem c10_set_attribute_no_validation (env : Env) (p : SetAttrParams) (b : Bool)
    (hbind : env.bindOk = true)
    (h1 : p.action ≠ "ADD") (h2 : p.action ≠ "DELETE") (h3 : p.action ≠ "REPLACE")
    (hmod : env.modify p.user [] = Except.ok b) :
    setAttrChanges p = [] ∧
    handle_set_attribute env p =
      (Except.ok (HandlerRet.result { status := some true,
                                      data := [[("modified", Val.bool b)]] }),
       [DirOp.modify p.user []]) := by
  have hch : setAttrChanges p = [] := by
    simp [setAttrChanges, h1, h2, h3]
  refine ⟨hch, ?_⟩
  unfold handle_set_attribute
  rw [hch, hbind]
  simp [hmod]

/-- Witness for C10 at a concrete environment and input. -/
theorem c10_witness :
    setAttrChanges { user := "u", attrName := "a", value := "v", action := "FROB" } = [] ∧
    handle_set_attribute baseEnv { user := "u", attrName := "a", value := "v", action := "FROB" } =
      (Except.ok (HandlerRet.result { status := some true,
                                      data := [[("modified", Val.bool true)]] }),
       [DirOp.modify "u" []]) :=
  c10_set_attribute_no_validation baseEnv { user := "u", attrName := "a", value := "v", action := "FROB" }
    true rfl (by decide) (by decide) (by decide) rfl
theorem cartRecords_length (f : String) (M G : List String) :
    (cartRecords f M G).length = M.length * G.length := by
  induction M with
  | nil => simp [cartRecords]
  | cons i M ih =>
    simp only [cartRecords, List.map_cons, List.flatten_cons, List.length_append,
      List.length_map, List.length_cons] at ih ⊢
    rw [ih, Nat.succ_mul, Nat.add_comm]

theorem group_members_finish_op_mem (env : Env) (ar : ActionResult)
    (M G : List String) (add : Bool) (ops : List DirOp) :
    (if add then DirOp.addMembers M G else DirOp.removeMembers M G) ∈
      (group_members_finish env ar M G add ops).2 := by
  unfold group_members_finish
  cases add
  · cases hc : env.removeMembersFromGroups M G <;> simp [hc]
  · cases hc : env.addMembersToGroups M G <;> simp [hc]

theorem group_members_finish_success (env : Env) (ar : ActionResult)
    (M G : List String) (add : Bool) (ops : List DirOp)
    (h : (if add then env.addMembersToGroups M G
          else env.removeMembersFromGroups M G) = Except.ok ()) :
    group_members_finish env ar M G add ops =
      (Except.ok (HandlerRet.result { ar with
          status := some true,
          message := (if add then "added" else "removed") ++ " member(s) to group(s).",
          data := cartRecords (if add then "added" else "removed") M G }),
       ops ++ [if add then DirOp.addMembers M G else DirOp.removeMembers M G]) := by
  unfold group_members_finish
  cases add <;> simp only [if_true, if_false, Bool.false_eq_true, ite_true, ite_false] at h ⊢ <;> rw [h]

theorem group_members_finish_isOk (env : Env) (ar : ActionResult)
    (M G : List String) (add : Bool) (ops : List DirOp) :
    (group_members_finish env ar M G add ops).1.isOk = true := by
  unfold group_members_finish
  cases add
  · cases hc : env.removeMembersFromGroups M G <;> simp [hc, Except.isOk, Except.toBool]
  · cases hc : env.addMembersToGroups M G <;> simp [hc, Except.isOk, Except.toBool]

/-- Claim C2: for a group-membership action with identifier resolution
requested, when either resolved list is empty the action finalizes with an
error status and no group-membership directory operation is attempted; and
when both resolved lists are non-empty (even if shorter than requested) the
action proceeds to attempt the group-membership operation on them. -/
theorem c2_group_members_empty_resolution (env : Env) (p : GroupParams) (add : Bool)
    (hitsM hitsG : List SearchEntry) (M G : List String)
    (hbind : env.bindOk = true) (husesam : p.use_samaccountname = true)
    (hm : env.search (samFilter (splitSemi p.members)) samAttrs = Except.ok hitsM)
    (hg : env.search (samFilter (splitSemi p.groups)) samAttrs = Except.ok hitsG)
    (hM : M = resolvedOf (splitSemi p.members) hitsM)
    (hG : G = resolvedOf (splitSemi p.groups) hitsG) :
    (M = [] ∨ G = [] →
      ∃ ar, handle_group_members env p add =
          (Except.ok (HandlerRet.result ar),
           [DirOp.search (samFilter (splitSemi p.members)) samAttrs,
            DirOp.search (samFilter (splitSemi p.groups)) samAttrs]) ∧
        ar.status = some false ∧
        ∀ op ∈ (handle_group_members env p add).2, op.isGroupMembershipOp = false) ∧
    (M ≠ [] → G ≠ [] →
      (if add then DirOp.addMembers M G else DirOp.removeMembers M G)
        ∈ (handle_group_members env p add).2) := by
  subst hM hG
  unfold handle_group_members sam_to_dn_run resolvedOf
  simp only [hbind, husesam, hm, hg, Bool.not_true, Bool.false_eq_true, if_false, ite_true,
    ite_false, if_true]
  constructor
  · intro h
    rw [if_neg ?hc]
    case hc =>
      rcases h with h | h <;> rw [h] <;> simp
    exact ⟨_, rfl, rfl, by intro op hop; simp at hop; rcases hop with rfl | rfl <;> rfl⟩
  · intro hMne hGne
    rw [if_pos ⟨List.length_pos.mpr hMne, List.length_pos.mpr hGne⟩]
    exact group_members_finish_op_mem env _ _ _ add _

/-- Witness for C2 at a concrete environment: members `alice;bob` where only
`alice` resolves, groups `g1` which resolves — the resolved lists are
shorter than requested but non-empty, and the action attempts the
group-membership operation. -/
theorem c2_witness :
    (resolvedOf (splitSemi "alice;bob") [entryAlice] = [] ∨
        resolvedOf (splitSemi "g1") [entryG1] = [] →
      ∃ ar, handle_group_members envC2 { members := "alice;bob", groups := "g1", use_samaccountname := true } true =
          (Except.ok (HandlerRet.result ar),
           [DirOp.search (samFilter (splitSemi "alice;bob")) samAttrs,
            DirOp.search (samFilter (splitSemi "g1")) samAttrs]) ∧
        ar.status = some false ∧
        ∀ op ∈ (handle_group_members envC2 { members := "alice;bob", groups := "g1", use_samaccountname := true } true).2,
          op.isGroupMembershipOp = false) ∧
    (resolvedOf (splitSemi "alice;bob") [entryAlice] ≠ [] →
      resolvedOf (splitSemi "g1") [entryG1] ≠ [] →
      (if true then DirOp.addMembers (resolvedOf (splitSemi "alice;bob") [entryAlice])
                      (resolvedOf (splitSemi "g1") [entryG1])
       else DirOp.removeMembers (resolvedOf (splitSemi "alice;bob") [entryAlice])
                      (resolvedOf (splitSemi "g1") [entryG1]))
        ∈ (handle_group_members envC2 { members := "alice;bob", groups := "g1", use_samaccountname := true } true).2) :=
  c2_group_members_empty_resolution envC2
    { members := "alice;bob", groups := "g1", use_samaccountname := true } true
    [entryAlice] [entryG1] _ _ rfl rfl rfl rfl rfl rfl

/-- Claim C5: a group-membership action that reaches its success path with
final member list `M` and final group list `G` (the resolved lists when
resolution was requested, the split input lists otherwise) emits exactly
`|M| * |G|` data records — the Cartesian product of final members and final
groups, each recording whether the applied function was `added` or
`removed` — for the add and the remove action alike. -/
theorem c5_group_members_cartesian (env : Env) (p : GroupParams) (add : Bool)
    (hitsM hitsG : List SearchEntry) (M G : List String)
    (hbind : env.bindOk = true)
    (hm : env.search (samFilter (splitSemi p.members)) samAttrs = Except.ok hitsM)
    (hg : env.search (samFilter (splitSemi p.groups)) samAttrs = Except.ok hitsG)
    (hM : M = if p.use_samaccountname then resolvedOf (splitSemi p.members) hitsM
              else splitSemi p.members)
    (hG : G = if p.use_samaccountname then resolvedOf (splitSemi p.groups) hitsG
              else splitSemi p.groups)
    (hMne : M ≠ []) (hGne : G ≠ [])
    (hop : (if add then env.addMembersToGroups M G
            else env.removeMembersFromGroups M G) = Except.ok ()) :
    ∃ ar ops, handle_group_members env p add = (Except.ok (HandlerRet.result ar), ops) ∧
      ar.status = some true ∧
      ar.data = cartRecords (if add then "added" else "removed") M G ∧
      ar.data.length = M.length * G.length := by
  cases husesam : p.use_samaccountname with
  | false =>
    rw [husesam] at hM hG
    simp only [Bool.false_eq_true, ite_false, if_false] at hM hG
    subst hM hG
    unfold handle_group_members
    simp only [hbind, husesam, Bool.not_true, Bool.false_eq_true, if_false, ite_false, ite_true]
    rw [group_members_finish_success env _ _ _ add _ hop]
    exact ⟨_, _, rfl, rfl, rfl, cartRecords_length _ _ _⟩
  | true =>
    rw [husesam] at hM hG
    simp only [ite_true, if_true] at hM hG
    unfold resolvedOf at hM hG
    subst hM hG
    unfold handle_group_members sam_to_dn_run
    simp only [hbind, husesam, hm, hg, Bool.not_true, Bool.false_eq_true, if_false, ite_true,
      ite_false, if_true]
    rw [if_pos ⟨List.length_pos.mpr hMne, List.length_pos.mpr hGne⟩]
    rw [group_members_finish_success env _ _ _ add _ hop]
    exact ⟨_, _, rfl, rfl, rfl, cartRecords_length _ _ _⟩

/-- Witness for C5 at a concrete input without resolution: two members, one
group, two data records. -/
theorem c5_witness :
    ∃ ar ops, handle_group_members baseEnv
        { members := "a;b", groups := "g", use_samaccountname := false } true =
        (Except.ok (HandlerRet.result ar), ops) ∧
      ar.status = some true ∧
      ar.data = cartRecords (if true then "added" else "removed")
        (splitSemi "a;b") (splitSemi "g") ∧
      ar.data.length = (splitSemi "a;b").length * (splitSemi "g").length :=
  c5_group_members_cartesian baseEnv
    { members := "a;b", groups := "g", use_samaccountname := false } true
    [] [] (splitSemi "a;b") (splitSemi "g") rfl rfl rfl rfl rfl
    (by decide) (by decide) rfl
theorem except_ok_isOk {e a : Type} (x : a) : (Except.ok x : Except e a).isOk = true := rfl

theorem account_status_modify_isOk (env : Env) (u : String)
    (changes : List (String × List (ChangeType × List Val))) (ops0 : List DirOp) :
    (account_status_modify env u changes ops0).1.isOk = true := by
  unfold account_status_modify
  cases hm : env.modify u changes with
  | error e => simp [hm, except_ok_isOk]
  | ok b => cases b <;> simp [hm, except_ok_isOk]

/-- Claim C1 (counterexample): the claim fails on three handlers at concrete
inputs — `reset_password` raises on its bind-failure path instead of setting
an error status, `get_attributes` propagates a fault raised by its inner
query, and `set_attribute` raises an uncaught name error on the path where
the modify call raises. -/
theorem c1_counterexample :
    (handle_reset_password { baseEnv with bindOk := false }
        { user := "u", password := "p" }).1 =
      Except.error PyExc.attributeError ∧
    (handle_get_attributes
        { baseEnv with search := fun _ _ => Except.error (PyExc.ldapExc "operations error") }
        { principals := "alice", attributes := "mail" }).1 =
      Except.error (PyExc.ldapExc "operations error") ∧
    (handle_set_attribute
        { baseEnv with modify := fun _ _ => Except.error (PyExc.ldapExc "modify failed") }
        { user := "u", attrName := "a", value := "v", action := "REPLACE" }).1 =
      Except.error (PyExc.nameError "ret") :=
  ⟨rfl, rfl, rfl⟩

/-- Claim C1 (amended): the account-status, raw-query, test-connectivity and
move-object handlers catch all operation-level faults locally and never
propagate an exception, and so do the group-membership and unlock handlers
when identifier resolution is not requested; but a fault raised by the
resolution query propagates out of the group-membership handlers,
`get_attributes` propagates a fault of its inner search, `reset_password`
raises on bind failure and turns a caught password-operation fault into a
propagated `TypeError`, and `set_attribute` raises an uncaught `NameError`
whenever its modify call raises. -/
theorem c1_amended_fault_propagation :
    (∀ env p d, (handle_account_status env p d).1.isOk = true) ∧
    (∀ env p, (handle_query_action env p).1.isOk = true) ∧
    (∀ env, (handle_test_connectivity env).1.isOk = true) ∧
    (∀ env p, (handle_move_object env p).1.isOk = true) ∧
    (∀ env p add, p.use_samaccountname = false →
      (handle_group_members env p add).1.isOk = true) ∧
    (∀ env p, p.use_samaccountname = false →
      (handle_unlock_account env p).1.isOk = true) ∧
    (∀ env p add e, p.use_samaccountname = true → env.bindOk = true →
      env.search (samFilter (splitSemi p.members)) samAttrs = Except.error e →
      (handle_group_members env p add).1 = Except.error e) ∧
    (∀ env p, env.bindOk = false →
      (handle_reset_password env p).1 = Except.error PyExc.attributeError) ∧
    (∀ env p e, env.bindOk = true →
      env.modifyPassword p.user p.password = Except.error e →
      (handle_reset_password env p).1 = Except.error PyExc.typeError) ∧
    (∀ env p e, env.bindOk = true →
      env.search (getAttrFilter (splitSemi p.principals)) (splitSemi p.attributes) =
        Except.error e →
      (handle_get_attributes env p).1 = Except.error e) ∧
    (∀ env p e, env.bindOk = true →
      env.modify p.user (setAttrChanges p) = Except.error e →
      (handle_set_attribute env p).1 = Except.error (PyExc.nameError "ret")) := by
  refine ⟨?_, ?_, ?_, ?_, ?_, ?_, ?_, ?_, ?_, ?_, ?_⟩
  · intro env p d
    unfold handle_account_status
    cases hb : env.bindOk <;>
      simp [hb, except_ok_isOk]
    cases hr : account_status_resp env p.user <;>
      simp [hr, except_ok_isOk, account_status_modify_isOk]
  · intro env p
    unfold handle_query_action
    cases hb : env.bindOk <;> simp [hb, except_ok_isOk]
    cases hs : env.search p.filter (splitSemi p.attributes) with
    | error e => cases e <;> simp [hs, except_ok_isOk]
    | ok entries => simp [hs, except_ok_isOk]
  · intro env
    rfl
  · intro env p
    unfold handle_move_object
    cases hb : env.bindOk <;> simp [hb, except_ok_isOk]
    cases hp : env.parseDn p.obj with
    | error e => simp [hp, except_ok_isOk]
    | ok comps =>
      cases comps with
      | nil => simp [hp, except_ok_isOk]
      | cons hd tl =>
        obtain ⟨a, v, sep⟩ := hd
        simp only [hp]
        cases hm : env.modifyDN p.obj (a ++ "=" ++ v) p.new_ou with
        | error e => simp [hm, except_ok_isOk]
        | ok b => cases b <;> simp [hm, except_ok_isOk]
  · intro env p add h
    unfold handle_group_members
    rw [h]
    cases hb : env.bindOk <;>
      simp [hb, except_ok_isOk, group_members_finish_isOk]
  · intro env p h
    unfold handle_unlock_account
    rw [h]
    cases hb : env.bindOk <;> simp [hb, except_ok_isOk]
  · intro env p add e husesam hbind hs
    unfold handle_group_members sam_to_dn_run
    simp [husesam, hbind, hs]
  · intro env p hb
    unfold handle_reset_password
    simp [hb]
  · intro env p e hb hm
    unfold handle_reset_password
    simp [hb, hm]
  · intro env p e hb hs
    unfold handle_get_attributes
    simp [hb, hs]
  · intro env p e hb hm
    unfold handle_set_attribute
    simp [hb, hm]

/-- Witness for the amended C1 at a concrete environment: the bind-failure
path of `reset_password` propagates an exception. -/
theorem c1_amended_witness :
    (handle_reset_password { baseEnv with bindOk := false }
        { user := "x", password := "y" }).1 = Except.error PyExc.attributeError :=
  c1_amended_fault_propagation.2.2.2.2.2.2.2.1
    { baseEnv with bindOk := false } { user := "x", password := "y" } rfl
